import Mathlib

/-!
Shallow embedding of the dataset-padding pipeline.

The development models the three core source functions of the repository:

* `generate_master_trading_day_list` (src/SpxDayTime.py): builds the canonical
  grid of (trading day, intraday time) timestamps for a date window, after the
  range-order and supported-range checks.
* `filter_early_close_data` (src/filter_early_close_data.py): restricts a
  record table to the closed window [start 00:00:00, end 23:59:59] and to
  timestamps that occur in the master trading-day list.
* `pad_entry_times` (src/pad_datetime.py): synthesizes one placeholder row per
  in-window grid timestamp missing from the table, appends them, and sorts the
  result by EntryTime.

Dates and timestamps are modelled as plain records of naturals; pandas
Timestamp comparison is the lexicographic order on (year, month, day,
second-of-day).  DataFrames are lists of rows; Python sets are modelled by
`List.dedup` (membership is what all downstream uses depend on, and the final
result is re-sorted, so iteration order of the set is immaterial).
-/

/-- A calendar date, as parsed from a `YYYY-MM-DD` string. -/
structure Date where
  year : Nat
  month : Nat
  day : Nat
deriving DecidableEq, Repr

/-- Date order: lexicographic on (year, month, day), matching comparison of
`datetime.date` values in the source. -/
def Date.le (a b : Date) : Prop :=
  a.year < b.year ∨ (a.year = b.year ∧
    (a.month < b.month ∨ (a.month = b.month ∧ a.day ≤ b.day)))

/-- Strict date order, matching `>` on `datetime` values in the source. -/
def Date.lt (a b : Date) : Prop :=
  a.year < b.year ∨ (a.year = b.year ∧
    (a.month < b.month ∨ (a.month = b.month ∧ a.day < b.day)))

instance (a b : Date) : Decidable (Date.le a b) := by
  unfold Date.le; infer_instance

instance (a b : Date) : Decidable (Date.lt a b) := by
  unfold Date.lt; infer_instance

/-- A date whose month and day components are in calendar range (any date
produced by a successful `strptime(_, "%Y-%m-%d")` satisfies this). -/
def Date.Valid (d : Date) : Prop :=
  1 ≤ d.month ∧ d.month ≤ 12 ∧ 1 ≤ d.day ∧ d.day ≤ 31

instance (d : Date) : Decidable d.Valid := by
  unfold Date.Valid; infer_instance

/-- A full timestamp: a date together with a second-of-day (pandas Timestamps
in this pipeline all have whole-second resolution; `Fin 86400` captures that a
time of day is strictly below 24:00:00). -/
structure Timestamp where
  date : Date
  sec : Fin 86400
deriving DecidableEq, Repr

/-- Timestamp order: lexicographic on (year, month, day, second-of-day),
matching pandas Timestamp comparison. -/
def Timestamp.le (a b : Timestamp) : Prop :=
  a.date.year < b.date.year ∨ (a.date.year = b.date.year ∧
    (a.date.month < b.date.month ∨ (a.date.month = b.date.month ∧
      (a.date.day < b.date.day ∨ (a.date.day = b.date.day ∧
        a.sec.val ≤ b.sec.val)))))

instance (a b : Timestamp) : Decidable (Timestamp.le a b) := by
  unfold Timestamp.le; infer_instance

theorem Timestamp.le_total (a b : Timestamp) : a.le b ∨ b.le a := by
  unfold Timestamp.le; omega

theorem Timestamp.le_trans {a b c : Timestamp} (h1 : a.le b) (h2 : b.le c) :
    a.le c := by
  unfold Timestamp.le at *; omega

/-- One cell of a DataFrame payload column.  The CSV inputs carry numbers,
booleans and strings; numeric literals (ints and floats) are modelled as
rationals, which the claims never do arithmetic on. -/
inductive Cell where
  | num : Rat → Cell
  | bool : Bool → Cell
  | str : String → Cell
deriving DecidableEq, Repr

/-- One row of the trade-record table, with the timestamp column `EntryTime`
and the payload columns used by the repository (the column set of the
placeholder dictionary in src/pad_datetime.py lines 75-105, which is also the
column set of the test data in src/test_pad_datetime.py). -/
structure Record where
  EntryTime : Timestamp
  TradeID : Cell
  OptionType : Cell
  Delta : Cell
  ShortStrike : Cell
  LongStrike : Cell
  Width : Cell
  Premium : Cell
  ProfitTarget : Cell
  ProfitDateTime : Cell
  ProfitPrice : Cell
  StopLossDateTime : Cell
  StopLossTarget : Cell
  StopLossPrice : Cell
  IsWin : Cell
  Outcome : Cell
  ProfitLoss : Cell
  ProfitLossAfterSlippage : Cell
  CommissionFees : Cell
  Slippage : Cell
  LossMultiple : Cell
  TradesToday : Cell
  VIX : Cell
  OpenDate : Cell
  OpenTime : Cell
  CloseDate : Cell
  CloseTime : Cell
deriving DecidableEq, Repr

/-- The placeholder row synthesized by `pad_entry_times` for a missing entry
time (src/pad_datetime.py lines 76-105): `EntryTime` is the missing timestamp,
`TradeID`, `ProfitLoss` and `ProfitLossAfterSlippage` are the integer 0, and
every other column is the empty string. -/
def placeholderRow (t : Timestamp) : Record where
  EntryTime := t
  TradeID := Cell.num 0
  OptionType := Cell.str ""
  Delta := Cell.str ""
  ShortStrike := Cell.str ""
  LongStrike := Cell.str ""
  Width := Cell.str ""
  Premium := Cell.str ""
  ProfitTarget := Cell.str ""
  ProfitDateTime := Cell.str ""
  ProfitPrice := Cell.str ""
  StopLossDateTime := Cell.str ""
  StopLossTarget := Cell.str ""
  StopLossPrice := Cell.str ""
  IsWin := Cell.str ""
  Outcome := Cell.str ""
  ProfitLoss := Cell.num 0
  ProfitLossAfterSlippage := Cell.num 0
  CommissionFees := Cell.str ""
  Slippage := Cell.str ""
  LossMultiple := Cell.str ""
  TradesToday := Cell.str ""
  VIX := Cell.str ""
  OpenDate := Cell.str ""
  OpenTime := Cell.str ""
  CloseDate := Cell.str ""
  CloseTime := Cell.str ""

/-- The payload (non-timestamp) cells of a row, in the column order of the
placeholder dictionary in src/pad_datetime.py. -/
def Record.payloadCells (r : Record) : List Cell :=
  [r.TradeID, r.OptionType, r.Delta, r.ShortStrike, r.LongStrike, r.Width,
   r.Premium, r.ProfitTarget, r.ProfitDateTime, r.ProfitPrice,
   r.StopLossDateTime, r.StopLossTarget, r.StopLossPrice, r.IsWin, r.Outcome,
   r.ProfitLoss, r.ProfitLossAfterSlippage, r.CommissionFees, r.Slippage,
   r.LossMultiple, r.TradesToday, r.VIX, r.OpenDate, r.OpenTime, r.CloseDate,
   r.CloseTime]

/-- Errors raised by `generate_master_trading_day_list`
(src/SpxDayTime.py lines 78-86).  The source raises `ValueError` in both
cases; the spec names them `InvalidRangeError` (range order) and
`UnsupportedRangeError` (outside the supported 2023-2025 window), so the
embedding keeps them apart by the check that raised them. -/
inductive GridError where
  | invalidRange
  | unsupportedRange
deriving DecidableEq, Repr

/-- The configuration section `spx_day_time_config` consumed by
src/SpxDayTime.py: early-close days, special holidays, and the ordered list of
valid intraday times (each time parsed from `"HH:MM" + ":00"` to a
second-of-day). -/
structure SpxConfig where
  early_close_days : List Date
  special_holidays : List Date
  valid_times : List (Fin 86400)

/-- `generate_master_trading_day_list` (src/SpxDayTime.py lines 51-122).
`calendar s e` stands for `cboe.valid_days(start_date, end_date)`, the list of
trading sessions the exchange calendar reports for the inclusive range; it is
a parameter of the embedding.  After the two range checks, every reported
session that is neither an early-close day nor a special holiday contributes
one timestamp per configured intraday time, in configured time order within a
day and calendar order across days. -/
def generate_master_trading_day_list (cfg : SpxConfig)
    (calendar : Date → Date → List Date) (start_date end_date : Date) :
    Except GridError (List Timestamp) :=
  if Date.lt end_date start_date then
    Except.error GridError.invalidRange
  else if start_date.year < 2023 ∨ end_date.year > 2025 then
    Except.error GridError.unsupportedRange
  else
    Except.ok <|
      ((calendar start_date end_date).filter (fun day =>
          decide (day ∉ cfg.early_close_days) &&
          decide (day ∉ cfg.special_holidays))).flatMap
        (fun day => cfg.valid_times.map (fun t => Timestamp.mk day t))

/-- The window test of `filter_early_close_data`: the timestamp lies in the
closed interval [start_date 00:00:00, end_date 23:59:59]
(src/filter_early_close_data.py lines 52-53 and 76). -/
def inFilterWindow (start_date end_date : Date) (t : Timestamp) : Prop :=
  Timestamp.le (Timestamp.mk start_date ⟨0, by omega⟩) t ∧
  Timestamp.le t (Timestamp.mk end_date ⟨86399, by omega⟩)

instance (s e : Date) (t : Timestamp) : Decidable (inFilterWindow s e t) := by
  unfold inFilterWindow; infer_instance

/-- `filter_early_close_data` (src/filter_early_close_data.py lines 31-112),
at the level of parsed timestamp values: first keep the rows whose `EntryTime`
lies in the closed [start 00:00:00, end 23:59:59] window (line 76), then keep
the rows whose `EntryTime` occurs in the `SpxDayTime` column of the master
trading-day list (line 102).  Both steps are pandas boolean-mask filters and
preserve the input order. -/
def filter_early_close_data (df : List Record)
    (master_trading_day_list : List Timestamp) (start_date end_date : Date) :
    List Record :=
  let ranged := df.filter (fun r =>
    decide (inFilterWindow start_date end_date r.EntryTime))
  ranged.filter (fun r => decide (r.EntryTime ∈ master_trading_day_list))

/-- The by-date window test used by `pad_entry_times`
(src/pad_datetime.py lines 43 and 58): only the date portion of the timestamp
is compared with the window bounds. -/
def inDateWindow (start_date end_date : Date) (t : Timestamp) : Prop :=
  Date.le start_date t.date ∧ Date.le t.date end_date

instance (s e : Date) (t : Timestamp) : Decidable (inDateWindow s e t) := by
  unfold inDateWindow; infer_instance

/-- `valid_entry_times_set` of `pad_entry_times` (src/pad_datetime.py lines
40-43): the set of master-list timestamps whose date lies in the window.
The Python set is modelled as a deduplicated list. -/
def validEntryTimes (master_trading_day_list : List Timestamp)
    (start_date end_date : Date) : List Timestamp :=
  master_trading_day_list.dedup.filter (fun t =>
    decide (inDateWindow start_date end_date t))

/-- `existing_entry_times_set` of `pad_entry_times` (src/pad_datetime.py lines
50-58): the set of `EntryTime` values of the input table whose date lies in
the window. -/
def existingEntryTimes (df : List Record) (start_date end_date : Date) :
    List Timestamp :=
  (df.map (fun r => r.EntryTime)).dedup.filter (fun t =>
    decide (inDateWindow start_date end_date t))

/-- `missing_entry_times_set` of `pad_entry_times` (src/pad_datetime.py line
61): in-window master timestamps with no matching `EntryTime` in the table. -/
def missingEntryTimes (df : List Record)
    (master_trading_day_list : List Timestamp) (start_date end_date : Date) :
    List Timestamp :=
  (validEntryTimes master_trading_day_list start_date end_date).filter
    (fun t => decide (t ∉ existingEntryTimes df start_date end_date))

/-- Row order used by the final `sort_values(by="EntryTime")`: non-decreasing
`EntryTime`. -/
def entryLe (a b : Record) : Prop := Timestamp.le a.EntryTime b.EntryTime

instance (a b : Record) : Decidable (entryLe a b) := by
  unfold entryLe; infer_instance

instance : IsTotal Record entryLe :=
  ⟨fun a b => Timestamp.le_total a.EntryTime b.EntryTime⟩

instance : IsTrans Record entryLe :=
  ⟨fun _ _ _ h1 h2 => Timestamp.le_trans h1 h2⟩

/-- `pad_entry_times` (src/pad_datetime.py lines 30-118): append one
placeholder row per missing in-window entry time to the input table
(`pd.concat`, line 110), then sort the combined table by `EntryTime` (line
113).  `sort_values` sorts by the `EntryTime` key only; the embedding uses
insertion sort, which agrees with it on every property the pipeline relies on
(the source's sort is not stable and tie order is unspecified). -/
def pad_entry_times (df : List Record)
    (master_trading_day_list : List Timestamp) (start_date end_date : Date) :
    List Record :=
  List.insertionSort entryLe
    (df ++ (missingEntryTimes df master_trading_day_list start_date
        end_date).map placeholderRow)

/-! ### Basic facts about the embedded operations -/

theorem Date.not_lt_of_le {a b : Date} (h : Date.le a b) : ¬ Date.lt b a := by
  unfold Date.le at h; unfold Date.lt; omega

theorem mem_validEntryTimes {master : List Timestamp} {s e : Date}
    {t : Timestamp} :
    t ∈ validEntryTimes master s e ↔ t ∈ master ∧ inDateWindow s e t := by
  unfold validEntryTimes
  simp [List.mem_filter, List.mem_dedup]

theorem validEntryTimes_nodup (master : List Timestamp) (s e : Date) :
    (validEntryTimes master s e).Nodup :=
  (List.nodup_dedup master).filter _

theorem mem_existingEntryTimes {df : List Record} {s e : Date}
    {t : Timestamp} :
    t ∈ existingEntryTimes df s e ↔
      t ∈ df.map (fun r => r.EntryTime) ∧ inDateWindow s e t := by
  unfold existingEntryTimes
  simp [List.mem_filter, List.mem_dedup]

theorem mem_missingEntryTimes {df : List Record} {master : List Timestamp}
    {s e : Date} {t : Timestamp} :
    t ∈ missingEntryTimes df master s e ↔
      t ∈ validEntryTimes master s e ∧
        t ∉ existingEntryTimes df s e := by
  unfold missingEntryTimes
  simp [List.mem_filter]

theorem missingEntryTimes_nodup (df : List Record) (master : List Timestamp)
    (s e : Date) : (missingEntryTimes df master s e).Nodup :=
  (validEntryTimes_nodup master s e).filter _

theorem inFilterWindow_of_inDateWindow {s e : Date} {t : Timestamp}
    (h : inDateWindow s e t) : inFilterWindow s e t := by
  obtain ⟨h1, h2⟩ := h
  have hsec := t.sec.isLt
  unfold Date.le at h1 h2
  unfold inFilterWindow Timestamp.le
  dsimp only
  omega

theorem pad_entry_times_perm (df : List Record) (master : List Timestamp)
    (s e : Date) :
    (pad_entry_times df master s e).Perm
      (df ++ (missingEntryTimes df master s e).map placeholderRow) :=
  List.perm_insertionSort entryLe _

theorem map_entryTime_placeholder (l : List Timestamp) :
    (l.map placeholderRow).map (fun r => r.EntryTime) = l := by
  rw [List.map_map]
  have h : ((fun r : Record => r.EntryTime) ∘ placeholderRow) = fun t => t := rfl
  rw [h, List.map_id']

theorem grid_flatMap_length (days : List Date) (times : List (Fin 86400)) :
    (days.flatMap (fun day => times.map (fun t => Timestamp.mk day t))).length
      = days.length * times.length := by
  induction days with
  | nil => simp
  | cons d ds ih => simp [ih, Nat.succ_mul, Nat.add_comm]

/-! ### Claim theorems -/

/-- Claim C3: `filter_early_close_data` returns exactly the records whose
timestamp lies in the closed interval [start_date 00:00:00, end_date 23:59:59]
and exactly equals some timestamp of the master trading-day list; the result
is the stable filter of the input by that conjunction, hence a subsequence of
the input (order preserved, no re-sort). -/
theorem claim_C3_filter_exact (df : List Record)
    (master : List Timestamp) (s e : Date) :
    filter_early_close_data df master s e =
      df.filter (fun r => decide (inFilterWindow s e r.EntryTime) &&
        decide (r.EntryTime ∈ master)) ∧
    (filter_early_close_data df master s e).Sublist df ∧
    (∀ r : Record, r ∈ filter_early_close_data df master s e ↔
      r ∈ df ∧ inFilterWindow s e r.EntryTime ∧ r.EntryTime ∈ master) := by
  have heq : filter_early_close_data df master s e =
      df.filter (fun r => decide (inFilterWindow s e r.EntryTime) &&
        decide (r.EntryTime ∈ master)) := by
    unfold filter_early_close_data
    rw [List.filter_filter]
    exact List.filter_congr (fun r _ => Bool.and_comm _ _)
  refine ⟨heq, ?_, ?_⟩
  · rw [heq]; exact List.filter_sublist df
  · intro r
    rw [heq]
    simp [List.mem_filter, and_assoc]

/-- Claim C5: the table returned by `pad_entry_times` is sorted
non-decreasing by the `EntryTime` timestamp (`entryLe` compares rows by
`Timestamp.le` on `EntryTime`). -/
theorem claim_C5_pad_sorted (df : List Record) (master : List Timestamp)
    (s e : Date) :
    (pad_entry_times df master s e).Sorted entryLe :=
  List.sorted_insertionSort entryLe _

/-- Claim C9: `pad_entry_times` removes, deduplicates and alters nothing: the
output is a permutation of the input table followed by one placeholder per
missing in-window grid timestamp, so its length is the input length plus the
number of missing timestamps, and every input row (payload included, even
out-of-window, off-grid or duplicated rows) occurs in the output at least as
often as in the input. -/
theorem claim_C9_pad_preserves_input (df : List Record)
    (master : List Timestamp) (s e : Date) :
    (pad_entry_times df master s e).Perm
      (df ++ (missingEntryTimes df master s e).map placeholderRow) ∧
    (pad_entry_times df master s e).length =
      df.length + (missingEntryTimes df master s e).length ∧
    (∀ r : Record,
      df.count r ≤ (pad_entry_times df master s e).count r) := by
  refine ⟨pad_entry_times_perm df master s e, ?_, ?_⟩
  · rw [(pad_entry_times_perm df master s e).length_eq]
    simp
  · intro r
    rw [(pad_entry_times_perm df master s e).count_eq]
    rw [List.count_append]
    exact Nat.le_add_right _ _

/-- Claim C2: for start_date ≤ end_date with both years in the supported
2023-2025 range, `generate_master_trading_day_list` succeeds and the grid
cardinality is (number of calendar sessions in range minus the excluded
sessions, i.e. those on the early-close or special-holiday lists) times the
number of configured intraday times. -/
theorem claim_C2_grid_cardinality (cfg : SpxConfig)
    (calendar : Date → Date → List Date) (s e : Date)
    (hle : Date.le s e) (hs : 2023 ≤ s.year) (he : e.year ≤ 2025) :
    ∃ grid,
      generate_master_trading_day_list cfg calendar s e = Except.ok grid ∧
      grid.length =
        ((calendar s e).length -
            ((calendar s e).filter (fun day =>
              decide (day ∈ cfg.early_close_days ∨
                day ∈ cfg.special_holidays))).length) *
          cfg.valid_times.length := by
  unfold generate_master_trading_day_list
  rw [if_neg (Date.not_lt_of_le hle), if_neg (by omega :
    ¬ (s.year < 2023 ∨ e.year > 2025))]
  refine ⟨_, rfl, ?_⟩
  rw [grid_flatMap_length]
  congr 1
  have hc : (calendar s e).filter (fun day =>
      decide (day ∉ cfg.early_close_days) &&
      decide (day ∉ cfg.special_holidays)) =
      (calendar s e).filter (fun day =>
        !(decide (day ∈ cfg.early_close_days ∨
          day ∈ cfg.special_holidays))) := by
    apply List.filter_congr
    intro d _
    simp [decide_not]
  rw [hc]
  have hp := List.length_eq_length_filter_add
    (l := calendar s e)
    (fun day => decide (day ∈ cfg.early_close_days ∨
      day ∈ cfg.special_holidays))
  omega

/-- Claim C7: `generate_master_trading_day_list` fails with the invalid-range
error whenever start_date is later than end_date (the first check, producing
no grid); for start_date ≤ end_date it fails with the unsupported-range error
whenever either date lies outside the supported [2023-01-01, 2025-12-31]
window, and succeeds (neither error) whenever both dates lie inside it. -/
theorem claim_C7_grid_error_handling (cfg : SpxConfig)
    (calendar : Date → Date → List Date) (s e : Date) :
    (Date.lt e s →
      generate_master_trading_day_list cfg calendar s e =
        Except.error GridError.invalidRange) ∧
    (Date.le s e → s.Valid → e.Valid →
      ¬ (Date.le (Date.mk 2023 1 1) s ∧ Date.le e (Date.mk 2025 12 31)) →
      generate_master_trading_day_list cfg calendar s e =
        Except.error GridError.unsupportedRange) ∧
    (Date.le s e → Date.le (Date.mk 2023 1 1) s →
      Date.le e (Date.mk 2025 12 31) →
      ∃ grid,
        generate_master_trading_day_list cfg calendar s e =
          Except.ok grid) := by
  refine ⟨?_, ?_, ?_⟩
  · intro hlt
    unfold generate_master_trading_day_list
    rw [if_pos hlt]
  · intro hle hsv hev hout
    unfold generate_master_trading_day_list
    rw [if_neg (Date.not_lt_of_le hle), if_pos ?_]
    unfold Date.le at hout
    unfold Date.Valid at hsv hev
    dsimp only at hout
    omega
  · intro hle hs he
    unfold generate_master_trading_day_list
    rw [if_neg (Date.not_lt_of_le hle), if_neg ?_]
    · exact ⟨_, rfl⟩
    · unfold Date.le at hs he
      dsimp only at hs he
      omega

/-- Claim C10: the supported-range check of
`generate_master_trading_day_list` inspects only the year components: given
start_date ≤ end_date it reports the unsupported-range error exactly when
start_date has year before 2023 or end_date has year after 2025, and (for
calendar-valid dates) it accepts exactly the windows with both dates inside
[2023-01-01, 2025-12-31]. -/
theorem claim_C10_year_only_check (cfg : SpxConfig)
    (calendar : Date → Date → List Date) (s e : Date)
    (hle : Date.le s e) :
    (generate_master_trading_day_list cfg calendar s e =
        Except.error GridError.unsupportedRange ↔
      (s.year < 2023 ∨ 2025 < e.year)) ∧
    (s.Valid → e.Valid →
      ((∃ grid, generate_master_trading_day_list cfg calendar s e =
          Except.ok grid) ↔
        (Date.le (Date.mk 2023 1 1) s ∧ Date.le e (Date.mk 2025 12 31)))) := by
  unfold generate_master_trading_day_list
  rw [if_neg (Date.not_lt_of_le hle)]
  by_cases hy : s.year < 2023 ∨ e.year > 2025
  · rw [if_pos hy]
    constructor
    · simp only [true_iff]
      omega
    · intro hsv hev
      unfold Date.Valid at hsv hev
      unfold Date.le
      dsimp only
      simp only [iff_iff_implies_and_implies]
      constructor
      · rintro ⟨g, hg⟩
        exact absurd hg (by simp)
      · intro hin
        exact absurd hy (by omega)
  · rw [if_neg hy]
    constructor
    · simp only [iff_iff_implies_and_implies]
      constructor
      · intro h
        exact absurd h (by simp)
      · intro h
        omega
    · intro hsv hev
      unfold Date.Valid at hsv hev
      unfold Date.le
      dsimp only
      constructor
      · intro _
        omega
      · intro _
        exact ⟨_, rfl⟩

/-- Claim C1 (amended): for an input table whose timestamps are pairwise
distinct members of the window-restricted grid (as the Filter Stage output
is), the padded table carries every in-window grid timestamp exactly once and
nothing else. -/
theorem claim_C1_amended (df : List Record) (master : List Timestamp)
    (s e : Date)
    (hsub : ∀ r ∈ df, r.EntryTime ∈ validEntryTimes master s e)
    (hnodup : (df.map (fun r => r.EntryTime)).Nodup) :
    ∀ t : Timestamp,
      ((pad_entry_times df master s e).map (fun r => r.EntryTime)).count t =
        if t ∈ validEntryTimes master s e then 1 else 0 := by
  intro t
  have hperm :
      ((pad_entry_times df master s e).map (fun r => r.EntryTime)).Perm
        ((df ++ (missingEntryTimes df master s e).map placeholderRow).map
          (fun r => r.EntryTime)) :=
    (pad_entry_times_perm df master s e).map _
  rw [hperm.count_eq, List.map_append, List.count_append,
    map_entryTime_placeholder]
  by_cases hv : t ∈ validEntryTimes master s e
  · rw [if_pos hv]
    by_cases hdf : t ∈ df.map (fun r => r.EntryTime)
    · have h1 : (df.map (fun r => r.EntryTime)).count t = 1 :=
        List.count_eq_one_of_mem hnodup hdf
      have hwin : inDateWindow s e t := (mem_validEntryTimes.mp hv).2
      have hex : t ∈ existingEntryTimes df s e :=
        mem_existingEntryTimes.mpr ⟨hdf, hwin⟩
      have h2 : (missingEntryTimes df master s e).count t = 0 :=
        List.count_eq_zero.mpr
          (fun hm => (mem_missingEntryTimes.mp hm).2 hex)
      omega
    · have h1 : (df.map (fun r => r.EntryTime)).count t = 0 :=
        List.count_eq_zero.mpr hdf
      have hnex : t ∉ existingEntryTimes df s e :=
        fun hex => hdf (mem_existingEntryTimes.mp hex).1
      have hm : t ∈ missingEntryTimes df master s e :=
        mem_missingEntryTimes.mpr ⟨hv, hnex⟩
      have h2 : (missingEntryTimes df master s e).count t = 1 :=
        List.count_eq_one_of_mem (missingEntryTimes_nodup df master s e) hm
      omega
  · rw [if_neg hv]
    have h2 : (missingEntryTimes df master s e).count t = 0 :=
      List.count_eq_zero.mpr
        (fun hm => hv (mem_missingEntryTimes.mp hm).1)
    have h1 : (df.map (fun r => r.EntryTime)).count t = 0 := by
      refine List.count_eq_zero.mpr (fun hdf => hv ?_)
      obtain ⟨r, hr, hrt⟩ := List.mem_map.mp hdf
      exact hrt ▸ hsub r hr
    omega

/-- Claim C8: if every timestamp of the input table is an in-window grid
timestamp, `filter_early_close_data` is a no-op — the output is the input
list itself, every record, payload and the original order preserved. -/
theorem claim_C8_filter_noop (df : List Record) (master : List Timestamp)
    (s e : Date)
    (hsub : ∀ r ∈ df, r.EntryTime ∈ validEntryTimes master s e) :
    filter_early_close_data df master s e = df := by
  unfold filter_early_close_data
  have h1 : df.filter (fun r =>
      decide (inFilterWindow s e r.EntryTime)) = df := by
    refine List.filter_eq_self.mpr (fun r hr => ?_)
    exact decide_eq_true (inFilterWindow_of_inDateWindow
      (mem_validEntryTimes.mp (hsub r hr)).2)
  have h2 : df.filter (fun r => decide (r.EntryTime ∈ master)) = df := by
    refine List.filter_eq_self.mpr (fun r hr => ?_)
    exact decide_eq_true (mem_validEntryTimes.mp (hsub r hr)).1
  dsimp only
  rw [h1, h2]

/-! ### Concrete values for counterexamples and witnesses

Dates, times and a genuine sample row taken from the test data in
src/test_pad_datetime.py (first row of the sample DataFrame). -/

def d20230103 : Date := Date.mk 2023 1 3

def d20230104 : Date := Date.mk 2023 1 4

/-- 2023-01-03 09:33:00 (09:33:00 is second 34380 of the day). -/
def ts0933 : Timestamp := Timestamp.mk d20230103 ⟨34380, by omega⟩

/-- 2023-01-03 10:00:00. -/
def ts1000 : Timestamp := Timestamp.mk d20230103 ⟨36000, by omega⟩

/-- The first genuine sample row of src/test_pad_datetime.py: note it carries
the number 0 (not a string) in the numeric `CommissionFees` column. -/
def testRow1 : Record where
  EntryTime := ts0933
  TradeID := Cell.num 5015667
  OptionType := Cell.str "P"
  Delta := Cell.num 0
  ShortStrike := Cell.num 3825
  LongStrike := Cell.num 3770
  Width := Cell.num 55
  Premium := Cell.num (47 / 10)
  ProfitTarget := Cell.str "P100"
  ProfitDateTime := Cell.str ""
  ProfitPrice := Cell.str ""
  StopLossDateTime := Cell.str "1/3/2023 10:18:00 AM"
  StopLossTarget := Cell.str "2x"
  StopLossPrice := Cell.num (141 / 10)
  IsWin := Cell.bool false
  Outcome := Cell.str "Stop Loss"
  ProfitLoss := Cell.num (-94 / 10)
  ProfitLossAfterSlippage := Cell.num (-94 / 10)
  CommissionFees := Cell.num 0
  Slippage := Cell.num 2
  LossMultiple := Cell.num 26
  TradesToday := Cell.num (2309 / 100)
  VIX := Cell.num (2309 / 100)
  OpenDate := Cell.str "2023-01-03"
  OpenTime := Cell.str "09:33:00"
  CloseDate := Cell.str "2023-01-03"
  CloseTime := Cell.str "10:18:00"

/-- Claim C1 as stated is false for arbitrary input tables: with an empty
grid and an input row timestamped 2023-01-03 09:33:00 inside the window, the
padded output still contains that timestamp, which is off the (empty) grid,
so the output timestamp set is not the in-window grid timestamp set. -/
theorem claim_C1_counterexample :
    ts0933 ∉ validEntryTimes [] d20230103 d20230103 ∧
    ((pad_entry_times [testRow1] [] d20230103 d20230103).map
        (fun r => r.EntryTime)).count ts0933 = 1 := by
  decide

/-- Witness for claim C1 at a concrete input: one genuine row at
2023-01-03 09:33:00 plus a two-point grid for that day. -/
theorem claim_C1_witness :
    ((pad_entry_times [testRow1] [ts0933, ts1000] d20230103
        d20230103).map (fun r => r.EntryTime)).count ts1000 =
      if ts1000 ∈ validEntryTimes [ts0933, ts1000] d20230103 d20230103
      then 1 else 0 :=
  claim_C1_amended [testRow1] [ts0933, ts1000] d20230103 d20230103
    (by decide) (by decide) ts1000

/-- Witness for claim C8 at a concrete input. -/
theorem claim_C8_witness :
    filter_early_close_data [testRow1] [ts0933, ts1000] d20230103
      d20230103 = [testRow1] :=
  claim_C8_filter_noop [testRow1] [ts0933, ts1000] d20230103 d20230103
    (by decide)

/-- Claim C4 as stated is false: `CommissionFees` is a numeric column (the
genuine rows of the repository test data carry the number 0 in it), yet the
synthesized placeholder stores the empty string there, not 0. -/
theorem claim_C4_counterexample :
    testRow1.CommissionFees = Cell.num 0 ∧
    (placeholderRow ts0933).CommissionFees = Cell.str "" ∧
    Cell.str "" ≠ Cell.num 0 := by
  refine ⟨rfl, rfl, ?_⟩
  decide

/-- Claim C4 (amended): every synthesized placeholder carries the missing
grid timestamp in `EntryTime` and a sentinel (the number 0 or the empty
string) in every other field — 0 exactly in `TradeID`, `ProfitLoss` and
`ProfitLossAfterSlippage`, and the empty string in every remaining field,
including numeric columns such as `CommissionFees` — and is distinguishable
from a genuine record by the zero `TradeID` identifier field. -/
theorem claim_C4_amended (t : Timestamp) :
    (placeholderRow t).EntryTime = t ∧
    (placeholderRow t).TradeID = Cell.num 0 ∧
    (placeholderRow t).ProfitLoss = Cell.num 0 ∧
    (placeholderRow t).ProfitLossAfterSlippage = Cell.num 0 ∧
    (∀ c ∈ (placeholderRow t).payloadCells,
      c = Cell.num 0 ∨ c = Cell.str "") ∧
    (∀ c ∈ [(placeholderRow t).OptionType, (placeholderRow t).Delta,
        (placeholderRow t).ShortStrike, (placeholderRow t).LongStrike,
        (placeholderRow t).Width, (placeholderRow t).Premium,
        (placeholderRow t).ProfitTarget, (placeholderRow t).ProfitDateTime,
        (placeholderRow t).ProfitPrice, (placeholderRow t).StopLossDateTime,
        (placeholderRow t).StopLossTarget, (placeholderRow t).StopLossPrice,
        (placeholderRow t).IsWin, (placeholderRow t).Outcome,
        (placeholderRow t).CommissionFees, (placeholderRow t).Slippage,
        (placeholderRow t).LossMultiple, (placeholderRow t).TradesToday,
        (placeholderRow t).VIX, (placeholderRow t).OpenDate,
        (placeholderRow t).OpenTime, (placeholderRow t).CloseDate,
        (placeholderRow t).CloseTime], c = Cell.str "") := by
  refine ⟨rfl, rfl, rfl, rfl, ?_, ?_⟩
  · rw [show (placeholderRow t).payloadCells =
      [Cell.num 0, Cell.str "", Cell.str "", Cell.str "", Cell.str "",
       Cell.str "", Cell.str "", Cell.str "", Cell.str "", Cell.str "",
       Cell.str "", Cell.str "", Cell.str "", Cell.str "", Cell.str "",
       Cell.num 0, Cell.num 0, Cell.str "", Cell.str "", Cell.str "",
       Cell.str "", Cell.str "", Cell.str "", Cell.str "", Cell.str "",
       Cell.str ""] from rfl]
    decide
  · rw [show [(placeholderRow t).OptionType, (placeholderRow t).Delta,
        (placeholderRow t).ShortStrike, (placeholderRow t).LongStrike,
        (placeholderRow t).Width, (placeholderRow t).Premium,
        (placeholderRow t).ProfitTarget, (placeholderRow t).ProfitDateTime,
        (placeholderRow t).ProfitPrice, (placeholderRow t).StopLossDateTime,
        (placeholderRow t).StopLossTarget, (placeholderRow t).StopLossPrice,
        (placeholderRow t).IsWin, (placeholderRow t).Outcome,
        (placeholderRow t).CommissionFees, (placeholderRow t).Slippage,
        (placeholderRow t).LossMultiple, (placeholderRow t).TradesToday,
        (placeholderRow t).VIX, (placeholderRow t).OpenDate,
        (placeholderRow t).OpenTime, (placeholderRow t).CloseDate,
        (placeholderRow t).CloseTime] =
      [Cell.str "", Cell.str "", Cell.str "", Cell.str "", Cell.str "",
       Cell.str "", Cell.str "", Cell.str "", Cell.str "", Cell.str "",
       Cell.str "", Cell.str "", Cell.str "", Cell.str "", Cell.str "",
       Cell.str "", Cell.str "", Cell.str "", Cell.str "", Cell.str "",
       Cell.str "", Cell.str "", Cell.str ""] from rfl]
    decide

/-- Witness for claim C4 at a concrete timestamp and concrete cells: the
sentinel disjunction at `CommissionFees` and the exact empty-string value at
the numeric `Delta` column. -/
theorem claim_C4_witness :
    (placeholderRow ts0933).EntryTime = ts0933 ∧
    ((placeholderRow ts0933).CommissionFees = Cell.num 0 ∨
      (placeholderRow ts0933).CommissionFees = Cell.str "") ∧
    (placeholderRow ts0933).Delta = Cell.str "" :=
  ⟨(claim_C4_amended ts0933).1,
    (claim_C4_amended ts0933).2.2.2.2.1 _ (by decide),
    (claim_C4_amended ts0933).2.2.2.2.2 _ (by decide)⟩

/-- Witness for claim C2 at a concrete configuration: a two-session calendar
with one excluded early-close day and one configured intraday time. -/
theorem claim_C2_witness :
    ∃ grid,
      generate_master_trading_day_list
        (SpxConfig.mk [d20230104] [] [⟨34380, by omega⟩])
        (fun _ _ => [d20230103, d20230104]) d20230103 d20230104 =
        Except.ok grid ∧
      grid.length =
        (((fun (_ _ : Date) => [d20230103, d20230104]) d20230103
              d20230104).length -
            (((fun (_ _ : Date) => [d20230103, d20230104]) d20230103
              d20230104).filter (fun day =>
              decide (day ∈ (SpxConfig.mk [d20230104] []
                  [⟨34380, by omega⟩]).early_close_days ∨
                day ∈ (SpxConfig.mk [d20230104] []
                  [⟨34380, by omega⟩]).special_holidays))).length) *
          (SpxConfig.mk [d20230104] [] [⟨34380, by omega⟩]).valid_times.length :=
  claim_C2_grid_cardinality
    (SpxConfig.mk [d20230104] [] [⟨34380, by omega⟩])
    (fun _ _ => [d20230103, d20230104]) d20230103 d20230104
    (by decide) (by decide) (by decide)

/-- Witness for claim C7: the three error-handling cases at concrete dates. -/
theorem claim_C7_witness :
    (generate_master_trading_day_list
        (SpxConfig.mk [] [] []) (fun _ _ => []) d20230104 d20230103 =
      Except.error GridError.invalidRange) ∧
    (generate_master_trading_day_list
        (SpxConfig.mk [] [] []) (fun _ _ => [])
        (Date.mk 2022 6 1) d20230103 =
      Except.error GridError.unsupportedRange) ∧
    (∃ grid,
      generate_master_trading_day_list
        (SpxConfig.mk [] [] []) (fun _ _ => []) d20230103 d20230104 =
        Except.ok grid) :=
  ⟨(claim_C7_grid_error_handling (SpxConfig.mk [] [] []) (fun _ _ => [])
      d20230104 d20230103).1 (by decide),
   (claim_C7_grid_error_handling (SpxConfig.mk [] [] []) (fun _ _ => [])
      (Date.mk 2022 6 1) d20230103).2.1 (by decide) (by decide) (by decide)
      (by decide),
   (claim_C7_grid_error_handling (SpxConfig.mk [] [] []) (fun _ _ => [])
      d20230103 d20230104).2.2 (by decide) (by decide) (by decide)⟩

/-- Witness for claim C10: the window 2023-01-01 .. 2025-12-31 itself is
accepted, and the year-check equivalence holds there. -/
theorem claim_C10_witness :
    (generate_master_trading_day_list (SpxConfig.mk [] [] [])
        (fun _ _ => []) (Date.mk 2023 1 1) (Date.mk 2025 12 31) =
        Except.error GridError.unsupportedRange ↔
      ((Date.mk 2023 1 1).year < 2023 ∨ 2025 < (Date.mk 2025 12 31).year)) ∧
    ((∃ grid, generate_master_trading_day_list (SpxConfig.mk [] [] [])
        (fun _ _ => []) (Date.mk 2023 1 1) (Date.mk 2025 12 31) =
        Except.ok grid) ↔
      (Date.le (Date.mk 2023 1 1) (Date.mk 2023 1 1) ∧
        Date.le (Date.mk 2025 12 31) (Date.mk 2025 12 31))) :=
  ⟨(claim_C10_year_only_check (SpxConfig.mk [] [] []) (fun _ _ => [])
      (Date.mk 2023 1 1) (Date.mk 2025 12 31) (by decide)).1,
   (claim_C10_year_only_check (SpxConfig.mk [] [] []) (fun _ _ => [])
      (Date.mk 2023 1 1) (Date.mk 2025 12 31) (by decide)).2
      (by decide) (by decide)⟩

/-! ### In-place column casts of the Filter Stage (claim C6)

`filter_early_close_data` executes
`df['EntryTime'] = pd.to_datetime(df['EntryTime'])` (line 66) and
`master_trading_day_list['SpxDayTime'] =
pd.to_datetime(master_trading_day_list['SpxDayTime'])` (line 92): both
assignments write the cast column back into the objects owned by the caller.
To make that observable, this model keeps a cell of the timestamp column as
either an unparsed string (as loaded from CSV) or an already-cast datetime
value, and returns the post-call states of both caller-owned objects next to
the filtered result. -/

/-- A cell of a timestamp column before normalization: either a raw string,
as `pd.read_csv` loads it, or an already-cast datetime value. -/
inductive RawCell where
  | str : String → RawCell
  | dt : Timestamp → RawCell
deriving DecidableEq, Repr

def parseNatPart (s : String) : Nat := s.toNat?.getD 0

/-- Parse a `YYYY-MM-DD` date string (the formats used in this pipeline). -/
def parseDateStr (s : String) : Date :=
  match s.splitOn "-" with
  | [y, m, d] => Date.mk (parseNatPart y) (parseNatPart m) (parseNatPart d)
  | _ => Date.mk 1970 1 1

/-- Parse an `HH:MM:SS` time-of-day string to a second-of-day. -/
def parseTimeStr (s : String) : Fin 86400 :=
  match s.splitOn ":" with
  | [h, m, sec] =>
    ⟨(parseNatPart h % 24) * 3600 + (parseNatPart m % 60) * 60 +
      parseNatPart sec % 60, by omega⟩
  | _ => ⟨0, by omega⟩

/-- Parse a `YYYY-MM-DD HH:MM:SS` timestamp string, the representation the
pipeline feeds into `pd.to_datetime`. -/
def parseTimestampStr (s : String) : Timestamp :=
  match s.splitOn " " with
  | [d, t] => Timestamp.mk (parseDateStr d) (parseTimeStr t)
  | [d] => Timestamp.mk (parseDateStr d) ⟨0, by omega⟩
  | _ => Timestamp.mk (Date.mk 1970 1 1) ⟨0, by omega⟩

/-- `pd.to_datetime` on one cell: a datetime value passes through unchanged,
a raw string is replaced by its parsed datetime value. -/
def toDatetime : RawCell → RawCell
  | RawCell.str s => RawCell.dt (parseTimestampStr s)
  | RawCell.dt t => RawCell.dt t

/-- The datetime value a cell denotes (the value `pd.to_datetime` yields). -/
def RawCell.value : RawCell → Timestamp
  | RawCell.str s => parseTimestampStr s
  | RawCell.dt t => t

/-- Whether a cell already holds a cast datetime value. -/
def RawCell.isDatetime : RawCell → Bool
  | RawCell.str _ => false
  | RawCell.dt _ => true

/-- A row of the input table at the raw level: the `EntryTime` cell plus the
payload columns, which the Filter Stage never touches. -/
structure RawRow where
  rawEntryTime : RawCell
  payload : List Cell
deriving DecidableEq, Repr

/-- One call of `filter_early_close_data` with the in-place effects made
explicit (src/filter_early_close_data.py lines 31-112): the first component
is the returned filtered table, the second is the post-call state of the
caller-owned input table (its `EntryTime` column cast in place at line 66),
the third is the post-call state of the caller-owned master trading-day list
column (cast in place at line 92). -/
def filter_early_close_data_call (df : List RawRow) (master : List RawCell)
    (start_date end_date : Date) :
    List RawRow × List RawRow × List RawCell :=
  let dfCast := df.map (fun r =>
    RawRow.mk (toDatetime r.rawEntryTime) r.payload)
  let ranged := dfCast.filter (fun r =>
    decide (inFilterWindow start_date end_date r.rawEntryTime.value))
  let masterCast := master.map toDatetime
  let result := ranged.filter (fun r =>
    decide (r.rawEntryTime.value ∈ masterCast.map RawCell.value))
  (result, dfCast, masterCast)

/-- Claim C6 as stated is false: on a table and grid loaded from CSV (string
timestamp cells), the call leaves both caller-owned objects changed — their
timestamp columns now hold cast datetime values instead of the original
strings. -/
theorem claim_C6_counterexample :
    (filter_early_close_data_call
        [RawRow.mk (RawCell.str "2023-01-03 09:33:00") []]
        [RawCell.str "2023-01-03 09:33:00"] d20230103 d20230103).2.1 ≠
      [RawRow.mk (RawCell.str "2023-01-03 09:33:00") []] ∧
    (filter_early_close_data_call
        [RawRow.mk (RawCell.str "2023-01-03 09:33:00") []]
        [RawCell.str "2023-01-03 09:33:00"] d20230103 d20230103).2.2 ≠
      [RawCell.str "2023-01-03 09:33:00"] := by
  constructor
  · intro h
    have h2 := congrArg (fun l => (l.headD
      (RawRow.mk (RawCell.str "") [])).rawEntryTime.isDatetime) h
    simp [filter_early_close_data_call, toDatetime, RawCell.isDatetime]
      at h2
  · intro h
    have h2 := congrArg (fun l =>
      (l.headD (RawCell.str "")).isDatetime) h
    simp [filter_early_close_data_call, toDatetime, RawCell.isDatetime]
      at h2

/-- Claim C6 (amended): the only side effect of `filter_early_close_data` on
its caller is the in-place cast of the two timestamp columns; when the input
table and the grid already hold datetime values — as with the grid built by
the Grid Generator — both are unchanged after the call, and the grid is never
mutated beyond that cast. -/
theorem claim_C6_amended (df : List RawRow) (master : List RawCell)
    (s e : Date)
    (hdf : ∀ r ∈ df, r.rawEntryTime.isDatetime = true)
    (hm : ∀ c ∈ master, c.isDatetime = true) :
    (filter_early_close_data_call df master s e).2.1 = df ∧
    (filter_early_close_data_call df master s e).2.2 = master := by
  have hcell : ∀ c : RawCell, c.isDatetime = true → toDatetime c = c := by
    intro c hc
    cases c with
    | str s => simp [RawCell.isDatetime] at hc
    | dt t => rfl
  constructor
  · show df.map (fun r =>
      RawRow.mk (toDatetime r.rawEntryTime) r.payload) = df
    rw [show df.map (fun r =>
        RawRow.mk (toDatetime r.rawEntryTime) r.payload) =
      df.map (fun r => r) from
      List.map_congr_left (fun r hr => by
        rw [hcell r.rawEntryTime (hdf r hr)])]
    exact List.map_id' df
  · show master.map toDatetime = master
    rw [show master.map toDatetime = master.map (fun c => c) from
      List.map_congr_left (fun c hc => hcell c (hm c hc))]
    exact List.map_id' master

/-- Witness for claim C6 at a concrete already-cast table and grid. -/
theorem claim_C6_witness :
    (filter_early_close_data_call [RawRow.mk (RawCell.dt ts0933) []]
        [RawCell.dt ts0933] d20230103 d20230103).2.1 =
      [RawRow.mk (RawCell.dt ts0933) []] ∧
    (filter_early_close_data_call [RawRow.mk (RawCell.dt ts0933) []]
        [RawCell.dt ts0933] d20230103 d20230103).2.2 =
      [RawCell.dt ts0933] :=
  claim_C6_amended [RawRow.mk (RawCell.dt ts0933) []] [RawCell.dt ts0933]
    d20230103 d20230103 (by decide) (by decide)
